import Mathlib

/-!
Shallow embedding of the backmarker UDP decoder (`src/udp.rs`) and the
millisecond formatter (`src/utils.rs`).

Modelling conventions:
* Bytes are `Nat` values (< 256 in any real buffer).
* The reusable receive buffer `buf : [u8; 65507]` is modelled as a
  `List Nat`; its length plays the role of the fixed capacity, so the
  slice-index bound `pointer + count <= buf.length` is exactly the bound
  checked by the Rust slice `self.buf[self.pointer..self.pointer + count]`.
* A Rust function that can panic (every `.unwrap()` on an `Err`, and the
  unchecked slice index in `read_bytes`) is modelled with `Option`:
  `none` is a panic, `some` is normal return.  A `Result` value that the
  function actually returns to its caller is modelled with `Except`.
* `f32` fields are carried as their little-endian 32-bit patterns
  (`Nat`); no claim depends on floating-point arithmetic.  The weather
  scalars (`clouds`, `rain_level`, `wetness`) are kept as the raw byte
  that the source divides by `10.0f32`.
* Socket I/O, the debug dump file and `disconnect` in the UTF-8 error
  branch of `read_string` are side effects outside the embedding; only
  the returned value and cursor state are modelled.
-/

instance {ε α : Type} [DecidableEq ε] [DecidableEq α] : DecidableEq (Except ε α)
  | Except.ok a, Except.ok b =>
    if h : a = b then isTrue (by rw [h])
    else isFalse (by intro hh; cases hh; exact h rfl)
  | Except.ok _, Except.error _ => isFalse (by intro h; cases h)
  | Except.error _, Except.ok _ => isFalse (by intro h; cases h)
  | Except.error e, Except.error f =>
    if h : e = f then isTrue (by rw [h])
    else isFalse (by intro hh; cases hh; exact h rfl)

/-- Little-endian byte-list to natural number, as in `u8/u16/u32::from_le_bytes`. -/
def from_le_bytes (bs : List Nat) : Nat :=
  bs.foldr (fun b acc => b + 256 * acc) 0

/-- Little-endian two-byte encoding of a `u16` value, as in `u16::to_le_bytes`. -/
def u16leBytes (n : Nat) : List Nat :=
  [n % 256, n / 256 % 256]

/-- Little-endian four-byte encoding of a `u32` value, as in `u32::to_le_bytes`. -/
def u32leBytes (n : Nat) : List Nat :=
  [n % 256, n / 256 % 256, n / 65536 % 256, n / 16777216 % 256]

/-- State of `UdpReader` (src/udp.rs): the reusable buffer, the size of the
last received datagram, and the read cursor.  The socket handle is I/O and
is not part of the embedded state. -/
structure UdpReader where
  buf : List Nat
  size : Nat
  pointer : Nat
deriving DecidableEq

/-- Sequencing for state-passing partial computations: `none` is a panic. -/
def pbind {α β : Type} (x : Option (α × UdpReader))
    (f : α → UdpReader → Option (β × UdpReader)) : Option (β × UdpReader) :=
  match x with
  | none => none
  | some (a, st) => f a st

/-- `UdpReader::read_bytes` (src/udp.rs:337-342): returns
`self.buf[self.pointer..self.pointer + count].to_vec()` and advances the
cursor.  The slice index panics (`none`) when `pointer + count` exceeds the
buffer capacity; the datagram `size` is never consulted. -/
def read_bytes (count : Nat) (st : UdpReader) : Option (List Nat × UdpReader) :=
  if st.pointer + count ≤ st.buf.length then
    some ((st.buf.drop st.pointer).take count,
          { st with pointer := st.pointer + count })
  else none

/-- `UdpReader::read_u8` (src/udp.rs:370-374). -/
def read_u8 (st : UdpReader) : Option (Nat × UdpReader) :=
  pbind (read_bytes 1 st) fun bs st => some (from_le_bytes bs, st)

/-- `UdpReader::read_u16` (src/udp.rs:364-368). -/
def read_u16 (st : UdpReader) : Option (Nat × UdpReader) :=
  pbind (read_bytes 2 st) fun bs st => some (from_le_bytes bs, st)

/-- `UdpReader::read_u32` (src/udp.rs:358-362). -/
def read_u32 (st : UdpReader) : Option (Nat × UdpReader) :=
  pbind (read_bytes 4 st) fun bs st => some (from_le_bytes bs, st)

/-- `UdpReader::read_f32` (src/udp.rs:376-380); the value is kept as its
little-endian 32-bit pattern. -/
def read_f32 (st : UdpReader) : Option (Nat × UdpReader) :=
  pbind (read_bytes 4 st) fun bs st => some (from_le_bytes bs, st)

/-- Continuation-byte test for UTF-8 (`0x80..=0xBF`). -/
def contB (b : Nat) : Bool :=
  decide (0x80 ≤ b) && decide (b < 0xC0)

/-- UTF-8 validation and decoding, as performed by `core::str::from_utf8`:
accepts exactly well-formed UTF-8 (no overlong forms, no surrogates,
maximum U+10FFFF) and yields the decoded characters. -/
def utf8Decode : List Nat → Option (List Char)
  | [] => some []
  | b :: rest =>
    if b < 0x80 then
      match utf8Decode rest with
      | some cs => some (Char.ofNat b :: cs)
      | none => none
    else if b < 0xC2 then none
    else if b < 0xE0 then
      match rest with
      | b1 :: rest1 =>
        if contB b1 then
          match utf8Decode rest1 with
          | some cs => some (Char.ofNat ((b - 0xC0) * 0x40 + (b1 - 0x80)) :: cs)
          | none => none
        else none
      | [] => none
    else if b < 0xF0 then
      match rest with
      | b1 :: b2 :: rest2 =>
        if (if b = 0xE0 then decide (0xA0 ≤ b1) && decide (b1 < 0xC0)
            else if b = 0xED then decide (0x80 ≤ b1) && decide (b1 < 0xA0)
            else contB b1) && contB b2 then
          match utf8Decode rest2 with
          | some cs =>
            some (Char.ofNat ((b - 0xE0) * 0x1000 + (b1 - 0x80) * 0x40 + (b2 - 0x80)) :: cs)
          | none => none
        else none
      | _ => none
    else if b < 0xF5 then
      match rest with
      | b1 :: b2 :: b3 :: rest3 =>
        if (if b = 0xF0 then decide (0x90 ≤ b1) && decide (b1 < 0xC0)
            else if b = 0xF4 then decide (0x80 ≤ b1) && decide (b1 < 0x90)
            else contB b1) && contB b2 && contB b3 then
          match utf8Decode rest3 with
          | some cs =>
            some (Char.ofNat ((b - 0xF0) * 0x40000 + (b1 - 0x80) * 0x1000
                    + (b2 - 0x80) * 0x40 + (b3 - 0x80)) :: cs)
          | none => none
        else none
      | _ => none
    else none

/-- `UdpReader::read_string` (src/udp.rs:344-356): reads a 2-byte
little-endian length prefix, then that many bytes, and decodes them as
UTF-8.  The two `read_bytes(..).unwrap()` calls panic (`none`) when the
slice is out of the buffer's range; a UTF-8 failure is the returned
`Err("could not parse string")` (the dump-file and disconnect side
effects of that branch are not modelled). -/
def read_string (st : UdpReader) : Option (Except String String × UdpReader) :=
  pbind (read_bytes 2 st) fun szBytes st =>
  pbind (read_bytes (from_le_bytes szBytes) st) fun sBytes st =>
  match utf8Decode sBytes with
  | some cs => some (Except.ok (String.mk cs), st)
  | none => some (Except.error "could not parse string", st)

/-- Result of `reader.read_string().unwrap()`: a returned `Err` becomes a
panic. -/
def unwrapS (x : Option (Except String String × UdpReader)) :
    Option (String × UdpReader) :=
  match x with
  | some (Except.ok s, st) => some (s, st)
  | some (Except.error _, _) => none
  | none => none

/-- `UdpReader::listen` (src/udp.rs:327-335) after a successful
`socket.recv`: the datagram is written over the front of the reusable
buffer (bytes beyond its length keep their previous, stale contents),
`size` is set to the datagram length and the cursor is reset to 0. -/
def listen (dgram : List Nat) (st : UdpReader) : UdpReader :=
  { buf := dgram ++ st.buf.drop dgram.length
    size := dgram.length
    pointer := 0 }

/-- `InboundMessageType` (src/udp.rs:47-56). -/
inductive InboundMessageType where
  | RegistrationResult
  | RealtimeUpdate
  | RealtimeCarUpdate
  | EntryList
  | TrackData
  | EntryListCar
  | BroadcastingEvent
deriving DecidableEq

/-- `impl TryFrom<u8> for InboundMessageType` (src/udp.rs:58-73). -/
def InboundMessageType.try_from (value : Nat) : Except String InboundMessageType :=
  match value with
  | 1 => Except.ok InboundMessageType.RegistrationResult
  | 2 => Except.ok InboundMessageType.RealtimeUpdate
  | 3 => Except.ok InboundMessageType.RealtimeCarUpdate
  | 4 => Except.ok InboundMessageType.EntryList
  | 5 => Except.ok InboundMessageType.TrackData
  | 6 => Except.ok InboundMessageType.EntryListCar
  | 7 => Except.ok InboundMessageType.BroadcastingEvent
  | _ => Except.error "could not parse message type"

/-- `RaceSessionType` (src/udp.rs:75-86). -/
inductive RaceSessionType where
  | Practice
  | Qualifying
  | Superpole
  | Race
  | Hotlap
  | Hotstint
  | HotlapSuperpole
  | Replay
deriving DecidableEq

/-- `impl TryFrom<u8> for RaceSessionType` (src/udp.rs:88-104). -/
def RaceSessionType.try_from (value : Nat) : Except String RaceSessionType :=
  match value with
  | 0 => Except.ok RaceSessionType.Practice
  | 4 => Except.ok RaceSessionType.Qualifying
  | 9 => Except.ok RaceSessionType.Superpole
  | 10 => Except.ok RaceSessionType.Race
  | 11 => Except.ok RaceSessionType.Hotlap
  | 12 => Except.ok RaceSessionType.Hotstint
  | 13 => Except.ok RaceSessionType.HotlapSuperpole
  | 14 => Except.ok RaceSessionType.Replay
  | _ => Except.error "could not parse race session type"

/-- `SessionPhase` (src/udp.rs:106-118). -/
inductive SessionPhase where
  | None
  | Starting
  | PreFormation
  | FormationLap
  | PreSession
  | Session
  | SessionOver
  | PostSession
  | ResultUI
deriving DecidableEq

/-- `impl TryFrom<u8> for SessionPhase` (src/udp.rs:120-137). -/
def SessionPhase.try_from (value : Nat) : Except String SessionPhase :=
  match value with
  | 0 => Except.ok SessionPhase.None
  | 1 => Except.ok SessionPhase.Starting
  | 2 => Except.ok SessionPhase.PreFormation
  | 3 => Except.ok SessionPhase.FormationLap
  | 4 => Except.ok SessionPhase.PreSession
  | 5 => Except.ok SessionPhase.Session
  | 6 => Except.ok SessionPhase.SessionOver
  | 7 => Except.ok SessionPhase.PostSession
  | 8 => Except.ok SessionPhase.ResultUI
  | _ => Except.error "could not parse session phase"

/-- `BroadcastingEventType` (src/udp.rs:139-150). -/
inductive BroadcastingEventType where
  | None
  | GreenFlag
  | SessionOver
  | PenaltyCommMsg
  | Accident
  | LapCompleted
  | BestSessionLap
  | BestPersonalLap
deriving DecidableEq

/-- `impl TryFrom<u8> for BroadcastingEventType` (src/udp.rs:152-168). -/
def BroadcastingEventType.try_from (value : Nat) : Except String BroadcastingEventType :=
  match value with
  | 0 => Except.ok BroadcastingEventType.None
  | 1 => Except.ok BroadcastingEventType.GreenFlag
  | 2 => Except.ok BroadcastingEventType.SessionOver
  | 3 => Except.ok BroadcastingEventType.PenaltyCommMsg
  | 4 => Except.ok BroadcastingEventType.Accident
  | 5 => Except.ok BroadcastingEventType.LapCompleted
  | 6 => Except.ok BroadcastingEventType.BestSessionLap
  | 7 => Except.ok BroadcastingEventType.BestPersonalLap
  | _ => Except.error "could not parse broadcasting event type"

/-- `LapType` (src/udp.rs:191-196). -/
inductive LapType where
  | Outlap
  | Inlap
  | Regular
deriving DecidableEq

/-- `LapInfo` (src/udp.rs:198-207). -/
structure LapInfo where
  laptime_ms : Nat
  car_index : Nat
  driver_index : Nat
  lap_splits : List Nat
  is_invalid : Bool
  is_valid_for_best : Bool
  lap_type : LapType
deriving DecidableEq

/-- `RegistrationResult` (src/udp.rs:216-220). -/
structure RegistrationResult where
  connection_id : Nat
  is_readonly : Bool
deriving DecidableEq

/-- `BroadcastingEvent` (src/udp.rs:290-296). -/
structure BroadcastingEvent where
  event_type : BroadcastingEventType
  msg : String
  time_ms : Nat
  car_id : Nat
deriving DecidableEq

/-- `RealtimeUpdate` (src/udp.rs:266-288); `f32` fields carried as raw
little-endian bit patterns, weather scalars as the raw byte the source
divides by `10.0f32`. -/
structure RealtimeUpdate where
  event_index : Nat
  session_index : Nat
  session_type : RaceSessionType
  phase : SessionPhase
  session_time : Nat
  session_end_time : Nat
  focused_car_index : Nat
  active_camera_set : String
  active_camera : String
  current_hud_page : String
  is_replay_playing : Bool
  replay_session_time : Option Nat
  replay_remaining_time : Option Nat
  time_of_day : Nat
  ambiant_temp : Nat
  track_temp : Nat
  clouds : Nat
  rain_level : Nat
  wetness : Nat
  best_session_lap : LapInfo
deriving DecidableEq

/-- `parse_registration_result` (src/udp.rs:420-431).  On a non-zero
success byte it returns `Ok` with `is_readonly` set to whether the next
byte equals 0 and consumes nothing further; on a zero success byte it
skips one byte, then returns the decoded string as the `Err` value.
Every `.unwrap()` panic is `none`. -/
def parse_registration_result (st : UdpReader) :
    Option (Except String RegistrationResult × UdpReader) :=
  pbind (read_u32 st) fun connection_id st =>
  pbind (read_u8 st) fun success st =>
  if success > 0 then
    pbind (read_u8 st) fun flag st =>
    some (Except.ok { connection_id := connection_id, is_readonly := flag == 0 }, st)
  else
    pbind (read_u8 st) fun _ st =>
    pbind (unwrapS (read_string st)) fun reason st =>
    some (Except.error reason, st)

/-- The split-reading loop of `parse_lap` (src/udp.rs:438-442):
`split_count` consecutive `read_u32` calls, pushed in order. -/
def read_splits : Nat → UdpReader → Option (List Nat × UdpReader)
  | 0, st => some ([], st)
  | n + 1, st =>
    pbind (read_u32 st) fun s st =>
    pbind (read_splits n st) fun rest st =>
    some (s :: rest, st)

/-- One bounded run of the padding loop of `parse_lap` (src/udp.rs:457-459):
push a zero while fewer than 3 splits, for at most `fuel` iterations. -/
def padLoop : Nat → List Nat → List Nat
  | 0, l => l
  | fuel + 1, l => if l.length < 3 then padLoop fuel (l ++ [0]) else l

/-- The padding loop of `parse_lap` (src/udp.rs:457-459): `while splits.len()
< 3` push a zero.  Each iteration grows the list by one, so the loop runs at
most 3 times; fuel 3 realises it exactly. -/
def padSplits (l : List Nat) : List Nat :=
  padLoop 3 l

/-- `parse_lap` (src/udp.rs:433-470). -/
def parse_lap (st : UdpReader) : Option (LapInfo × UdpReader) :=
  pbind (read_u32 st) fun laptime_ms st =>
  pbind (read_u16 st) fun car_index st =>
  pbind (read_u16 st) fun driver_index st =>
  pbind (read_u8 st) fun split_count st =>
  pbind (read_splits split_count st) fun splits st =>
  pbind (read_u8 st) fun b1 st =>
  pbind (read_u8 st) fun b2 st =>
  pbind (read_u8 st) fun b3 st =>
  pbind (read_u8 st) fun b4 st =>
  some ({ laptime_ms := laptime_ms
          car_index := car_index
          driver_index := driver_index
          lap_splits := padSplits splits
          is_invalid := decide (b1 > 0)
          is_valid_for_best := decide (b2 > 0)
          lap_type :=
            if b3 > 0 then LapType.Outlap
            else if b4 > 0 then LapType.Inlap
            else LapType.Regular }, st)

/-- `parse_realtime_update` (src/udp.rs:472-521).  The two
`try_from(..).unwrap()` calls panic (`none`) on an undefined enum byte. -/
def parse_realtime_update (st : UdpReader) : Option (RealtimeUpdate × UdpReader) :=
  pbind (read_u16 st) fun event_index st =>
  pbind (read_u16 st) fun session_index st =>
  pbind (read_u8 st) fun stByte st =>
  match RaceSessionType.try_from stByte with
  | Except.error _ => none
  | Except.ok session_type =>
    pbind (read_u8 st) fun phByte st =>
    match SessionPhase.try_from phByte with
    | Except.error _ => none
    | Except.ok phase =>
      pbind (read_f32 st) fun session_time st =>
      pbind (read_f32 st) fun session_end_time st =>
      pbind (read_u32 st) fun focused_car_index st =>
      pbind (unwrapS (read_string st)) fun active_camera_set st =>
      pbind (unwrapS (read_string st)) fun active_camera st =>
      pbind (unwrapS (read_string st)) fun current_hud_page st =>
      pbind (read_u8 st) fun rp st =>
      pbind (if rp > 0 then
               pbind (read_f32 st) fun a st =>
               pbind (read_f32 st) fun b st =>
               some ((some a, some b), st)
             else some (((none : Option Nat), (none : Option Nat)), st)) fun rep st =>
      pbind (read_f32 st) fun time_of_day st =>
      pbind (read_u8 st) fun ambiant_temp st =>
      pbind (read_u8 st) fun track_temp st =>
      pbind (read_u8 st) fun clouds st =>
      pbind (read_u8 st) fun rain_level st =>
      pbind (read_u8 st) fun wetness st =>
      pbind (parse_lap st) fun best_session_lap st =>
      some ({ event_index := event_index
              session_index := session_index
              session_type := session_type
              phase := phase
              session_time := session_time
              session_end_time := session_end_time
              focused_car_index := focused_car_index
              active_camera_set := active_camera_set
              active_camera := active_camera
              current_hud_page := current_hud_page
              is_replay_playing := decide (rp > 0)
              replay_session_time := rep.1
              replay_remaining_time := rep.2
              time_of_day := time_of_day
              ambiant_temp := ambiant_temp
              track_temp := track_temp
              clouds := clouds
              rain_level := rain_level
              wetness := wetness
              best_session_lap := best_session_lap }, st)

/-- `parse_broadcasting_event` (src/udp.rs:655-667).  The
`try_from(..).unwrap()` panics (`none`) on an undefined event-type byte. -/
def parse_broadcasting_event (st : UdpReader) : Option (BroadcastingEvent × UdpReader) :=
  pbind (read_u8 st) fun eb st =>
  match BroadcastingEventType.try_from eb with
  | Except.error _ => none
  | Except.ok event_type =>
    pbind (unwrapS (read_string st)) fun msg st =>
    pbind (read_u32 st) fun time_ms st =>
    pbind (read_u32 st) fun car_id st =>
    some ({ event_type := event_type, msg := msg, time_ms := time_ms, car_id := car_id }, st)

/-- `BROADCASTING_PROTOCOL_VERSION` (src/udp.rs:29). -/
def BROADCASTING_PROTOCOL_VERSION : Nat := 4

/-- Byte values of an ASCII string literal, as in a Rust `b"..."` slice. -/
def asciiBytes (s : String) : List Nat :=
  s.data.map Char.toNat

/-- The Register request datagram built by `connect` (src/udp.rs:383-397),
instruction by instruction: push tag, push protocol version, extend with
`4u16` little-endian and `b"name"`, extend with `3u16` and `b"asd"`,
extend with `250u32` little-endian, extend with `0u16`. -/
def connectBuf : List Nat :=
  [1] ++ [BROADCASTING_PROTOCOL_VERSION]
    ++ u16leBytes 4 ++ asciiBytes "name"
    ++ u16leBytes 3 ++ asciiBytes "asd"
    ++ u32leBytes 250
    ++ u16leBytes 0

/-- Wire convention for a string field stated by the spec: a 2-byte
little-endian length prefix followed by the string's bytes. -/
def strField (s : String) : List Nat :=
  u16leBytes (asciiBytes s).length ++ asciiBytes s

/-- Spec-side tag table: tags 1-7 map respectively to RegistrationResult,
RealtimeUpdate, RealtimeCarUpdate, EntryList, TrackData, EntryListCar,
BroadcastingEvent; any other value is rejected. -/
def inboundTagTable (b : Nat) : Except String InboundMessageType :=
  if b = 1 then Except.ok InboundMessageType.RegistrationResult
  else if b = 2 then Except.ok InboundMessageType.RealtimeUpdate
  else if b = 3 then Except.ok InboundMessageType.RealtimeCarUpdate
  else if b = 4 then Except.ok InboundMessageType.EntryList
  else if b = 5 then Except.ok InboundMessageType.TrackData
  else if b = 6 then Except.ok InboundMessageType.EntryListCar
  else if b = 7 then Except.ok InboundMessageType.BroadcastingEvent
  else Except.error "could not parse message type"

/-- Wire encoding of a lap sub-record as specified: u32 laptime, u16 car
index, u16 driver index, u8 split count, the splits as u32s, then the four
boolean bytes. -/
def encodeLap (laptime carIdx drvIdx : Nat) (splits : List Nat)
    (b1 b2 b3 b4 : Nat) : List Nat :=
  u32leBytes laptime ++ u16leBytes carIdx ++ u16leBytes drvIdx
    ++ [splits.length] ++ (splits.map u32leBytes).flatten ++ [b1, b2, b3, b4]

/-- `ms_to_string` (src/utils.rs:1-6); `format!` with `{:?}` on unsigned
integers prints their decimal digits, i.e. `toString`. -/
def ms_to_string (ms : Nat) : String :=
  let mn := ms / 60000
  let sec := (ms - 60000 * mn) / 1000
  let rest := ms - 60000 * mn - 1000 * sec
  toString mn ++ ":" ++ toString sec ++ "." ++ toString rest

/-!  Helper lemmas about the cursor reads, shared by the theorems below. -/

lemma padSplits_eq_pad (l : List Nat) : padSplits l = l ++ List.replicate (3 - l.length) 0 := by
  rcases l with _ | ⟨a, _ | ⟨b, _ | ⟨c, t⟩⟩⟩
  · rfl
  · rfl
  · rfl
  · simp [padSplits, padLoop, List.replicate]

lemma from_le_bytes_u16le (n : Nat) (hn : n < 65536) :
    from_le_bytes (u16leBytes n) = n := by
  simp only [from_le_bytes, u16leBytes, List.foldr]
  omega

lemma from_le_bytes_u32le (n : Nat) (hn : n < 4294967296) :
    from_le_bytes (u32leBytes n) = n := by
  simp only [from_le_bytes, u32leBytes, List.foldr]
  omega

lemma read_bytes_rem (buf : List Nat) (sz p : Nat) (mid post : List Nat)
    (hp : p ≤ buf.length)
    (h : buf.drop p = mid ++ post) :
    read_bytes mid.length ⟨buf, sz, p⟩ = some (mid, ⟨buf, sz, p + mid.length⟩) ∧
    p + mid.length ≤ buf.length ∧
    buf.drop (p + mid.length) = post := by
  have hlen : buf.length - p = mid.length + post.length := by
    rw [← List.length_drop, h, List.length_append]
  have hle : p + mid.length ≤ buf.length := by omega
  refine ⟨?_, hle, ?_⟩
  · show (if p + mid.length ≤ buf.length then _ else _) = _
    rw [if_pos hle]
    show some ((buf.drop p).take mid.length, _) = _
    rw [h, List.take_left]
  · rw [← List.drop_drop, h, List.drop_left]

lemma read_u8_rem (buf : List Nat) (sz p : Nat) (b : Nat) (post : List Nat)
    (hp : p ≤ buf.length)
    (h : buf.drop p = b :: post) :
    read_u8 ⟨buf, sz, p⟩ = some (b, ⟨buf, sz, p + 1⟩) ∧
    p + 1 ≤ buf.length ∧
    buf.drop (p + 1) = post := by
  obtain ⟨h1, h2, h3⟩ := read_bytes_rem buf sz p [b] post hp (by simpa using h)
  refine ⟨?_, by simpa using h2, by simpa using h3⟩
  simp only [List.length_cons, List.length_nil] at h1
  simp [read_u8, h1, pbind, from_le_bytes]

lemma read_u16le_rem (buf : List Nat) (sz p : Nat) (n : Nat) (post : List Nat)
    (hp : p ≤ buf.length)
    (h : buf.drop p = u16leBytes n ++ post)
    (hn : n < 65536) :
    read_u16 ⟨buf, sz, p⟩ = some (n, ⟨buf, sz, p + 2⟩) ∧
    p + 2 ≤ buf.length ∧
    buf.drop (p + 2) = post := by
  obtain ⟨h1, h2, h3⟩ := read_bytes_rem buf sz p (u16leBytes n) post hp h
  have hl : (u16leBytes n).length = 2 := rfl
  rw [hl] at h1 h2 h3
  refine ⟨?_, h2, h3⟩
  simp only [read_u16, h1, pbind, from_le_bytes_u16le n hn]

lemma read_u32le_rem (buf : List Nat) (sz p : Nat) (n : Nat) (post : List Nat)
    (hp : p ≤ buf.length)
    (h : buf.drop p = u32leBytes n ++ post)
    (hn : n < 4294967296) :
    read_u32 ⟨buf, sz, p⟩ = some (n, ⟨buf, sz, p + 4⟩) ∧
    p + 4 ≤ buf.length ∧
    buf.drop (p + 4) = post := by
  obtain ⟨h1, h2, h3⟩ := read_bytes_rem buf sz p (u32leBytes n) post hp h
  have hl : (u32leBytes n).length = 4 := rfl
  rw [hl] at h1 h2 h3
  refine ⟨?_, h2, h3⟩
  simp only [read_u32, h1, pbind, from_le_bytes_u32le n hn]

lemma read_u32_raw_rem (buf : List Nat) (sz p : Nat) (b0 b1 b2 b3 : Nat) (post : List Nat)
    (hp : p ≤ buf.length)
    (h : buf.drop p = b0 :: b1 :: b2 :: b3 :: post) :
    read_u32 ⟨buf, sz, p⟩ =
      some (b0 + 256 * (b1 + 256 * (b2 + 256 * b3)), ⟨buf, sz, p + 4⟩) ∧
    p + 4 ≤ buf.length ∧
    buf.drop (p + 4) = post := by
  obtain ⟨h1, h2, h3⟩ := read_bytes_rem buf sz p [b0, b1, b2, b3] post hp (by simpa using h)
  refine ⟨?_, by simpa using h2, by simpa using h3⟩
  simp only [List.length_cons, List.length_nil] at h1
  simp [read_u32, h1, pbind, from_le_bytes]

lemma read_splits_rem (splits : List Nat) (buf : List Nat) (sz p : Nat) (post : List Nat)
    (hp : p ≤ buf.length)
    (h : buf.drop p = (splits.map u32leBytes).flatten ++ post)
    (hs : ∀ s ∈ splits, s < 4294967296) :
    read_splits splits.length ⟨buf, sz, p⟩ =
      some (splits, ⟨buf, sz, p + 4 * splits.length⟩) ∧
    p + 4 * splits.length ≤ buf.length ∧
    buf.drop (p + 4 * splits.length) = post := by
  induction splits generalizing p with
  | nil =>
    simp only [List.map_nil, List.flatten_nil, List.nil_append] at h
    simp only [List.length_nil, Nat.mul_zero, Nat.add_zero]
    exact ⟨rfl, hp, h⟩
  | cons s tail ih =>
    have hh : buf.drop p = u32leBytes s ++ ((tail.map u32leBytes).flatten ++ post) := by
      simpa [List.append_assoc] using h
    obtain ⟨h1, h2, h3⟩ :=
      read_u32le_rem buf sz p s _ hp hh (hs s (List.mem_cons_self s tail))
    obtain ⟨h4, h5, h6⟩ :=
      ih (p + 4) h2 h3 (fun x hx => hs x (List.mem_cons_of_mem s hx))
    have harith : p + 4 + 4 * tail.length = p + 4 * (tail.length + 1) := by omega
    simp only [List.length_cons]
    refine ⟨?_, by omega, by rw [← harith]; exact h6⟩
    show read_splits (tail.length + 1) ⟨buf, sz, p⟩ = _
    simp only [read_splits, h1, pbind, h4]
    simp only [Option.some.injEq, Prod.mk.injEq, UdpReader.mk.injEq, true_and]
    omega

/-!  Theorems for the claims. -/

/-- C1: the claim says a string field whose declared 2-byte length prefix
exceeds the remaining datagram bytes makes `read_string`/`read_bytes` return
a typed TruncatedField decode error with no out-of-range read.  The code has
no such check: with the previous datagram's bytes still in the buffer beyond
`size = 2`, a declared length of 5 succeeds and returns a string built from
stale bytes at offsets >= size (first conjunct), and when the slice would
pass the end of the buffer the unchecked slice index panics, modelled as
`none` (second conjunct).  In neither case is a typed error returned. -/
theorem read_string_truncated_no_error :
    read_string ⟨[5, 0, 72, 73, 33, 65, 33], 2, 0⟩ =
      some (Except.ok "HI!A!", ⟨[5, 0, 72, 73, 33, 65, 33], 2, 7⟩) ∧
    read_string ⟨[5, 0], 2, 0⟩ = none :=
  ⟨by decide, by decide⟩

/-- C2: the claim says `parse_realtime_update` and `parse_broadcasting_event`
return a typed InvalidEnumValue failure to their caller on an undefined enum
byte and never panic.  The `TryFrom` impls do reject undefined bytes with an
error and never default, but both parse functions `.unwrap()` that result,
so an undefined session-type byte (1 is not a `RaceSessionType` value) or
event-type byte (8) makes the parser panic (`none`) instead of returning the
failure. -/
theorem parse_enum_invalid_panics :
    RaceSessionType.try_from 1 = Except.error "could not parse race session type" ∧
    parse_realtime_update ⟨[0, 0, 0, 0, 1], 5, 0⟩ = none ∧
    BroadcastingEventType.try_from 8 = Except.error "could not parse broadcasting event type" ∧
    parse_broadcasting_event ⟨[8], 1, 0⟩ = none :=
  ⟨by decide, by decide, by decide, by decide⟩

/-- C3 counterexample: on the buffer `[0,0,0,0, 1, 0, 7]` (connection_id 0,
success byte 1, read-only flag byte 0), `parse_registration_result` returns
`is_readonly = true` — the claim predicted `false` for flag byte 0 — and
leaves the cursor at 6, having consumed no reserved byte after the flag —
the claim predicted 7. -/
theorem registration_readonly_counterexample :
    parse_registration_result ⟨[0, 0, 0, 0, 1, 0, 7], 7, 0⟩ =
      some (Except.ok { connection_id := 0, is_readonly := true },
            ⟨[0, 0, 0, 0, 1, 0, 7], 7, 6⟩) := by
  decide

/-- C3 (amended): for every RegistrationResult payload whose success byte
`s` (read after the u32 connection_id) is non-zero,
`parse_registration_result` returns `Ok` with `is_readonly = true` exactly
when the following read-only flag byte is 0, and consumes only the flag
byte — six bytes in total, no additional reserved byte — before
returning. -/
theorem parse_registration_result_success (pre rest : List Nat) (sz c0 c1 c2 c3 s f : Nat)
    (hs : 0 < s) :
    parse_registration_result ⟨pre ++ (c0 :: c1 :: c2 :: c3 :: s :: f :: rest), sz, pre.length⟩ =
      some (Except.ok { connection_id := c0 + 256 * (c1 + 256 * (c2 + 256 * c3)),
                        is_readonly := f == 0 },
            ⟨pre ++ (c0 :: c1 :: c2 :: c3 :: s :: f :: rest), sz, pre.length + 6⟩) := by
  have hp0 : pre.length ≤ (pre ++ (c0 :: c1 :: c2 :: c3 :: s :: f :: rest)).length := by
    simp
  have h0 : (pre ++ (c0 :: c1 :: c2 :: c3 :: s :: f :: rest)).drop pre.length =
      c0 :: c1 :: c2 :: c3 :: (s :: f :: rest) := List.drop_left pre _
  obtain ⟨h1, hp1, hr1⟩ :=
    read_u32_raw_rem (pre ++ (c0 :: c1 :: c2 :: c3 :: s :: f :: rest)) sz pre.length
      c0 c1 c2 c3 (s :: f :: rest) hp0 h0
  obtain ⟨h2, hp2, hr2⟩ :=
    read_u8_rem (pre ++ (c0 :: c1 :: c2 :: c3 :: s :: f :: rest)) sz (pre.length + 4)
      s (f :: rest) hp1 hr1
  obtain ⟨h3, hp3, hr3⟩ :=
    read_u8_rem (pre ++ (c0 :: c1 :: c2 :: c3 :: s :: f :: rest)) sz (pre.length + 4 + 1)
      f rest hp2 hr2
  simp only [parse_registration_result, h1, pbind, h2]
  rw [if_pos hs]
  simp only [h3, pbind]

/-- Witness for C3 (amended) at connection_id bytes `0,0,0,0`, success byte
1, flag byte 0. -/
theorem parse_registration_result_success_witness :
    parse_registration_result ⟨[] ++ (0 :: 0 :: 0 :: 0 :: 1 :: 0 :: []), 6,
        List.length ([] : List Nat)⟩ =
      some (Except.ok { connection_id := 0 + 256 * (0 + 256 * (0 + 256 * 0)),
                        is_readonly := 0 == 0 },
            ⟨[] ++ (0 :: 0 :: 0 :: 0 :: 1 :: 0 :: []), 6, List.length ([] : List Nat) + 6⟩) :=
  parse_registration_result_success [] [] 6 0 0 0 0 1 0 (by decide)

/-- C4: decoding `[1, 0,0,0,0, 0, 1, 5,0, 72,73,33,65,33]` — tag byte 1 is
RegistrationResult, connection_id 0, success byte 0, one reserved byte,
length-5 string — produces the registration-rejected failure (the `Err`
value returned by `parse_registration_result`) whose reason string is
exactly "HI!A!". -/
theorem registration_rejected_example :
    read_u8 ⟨[1, 0, 0, 0, 0, 0, 1, 5, 0, 72, 73, 33, 65, 33], 14, 0⟩ =
      some (1, ⟨[1, 0, 0, 0, 0, 0, 1, 5, 0, 72, 73, 33, 65, 33], 14, 1⟩) ∧
    InboundMessageType.try_from 1 = Except.ok InboundMessageType.RegistrationResult ∧
    parse_registration_result ⟨[1, 0, 0, 0, 0, 0, 1, 5, 0, 72, 73, 33, 65, 33], 14, 1⟩ =
      some (Except.error "HI!A!", ⟨[1, 0, 0, 0, 0, 0, 1, 5, 0, 72, 73, 33, 65, 33], 14, 14⟩) :=
  ⟨by decide, by decide, by decide⟩

/-- C5: for every well-formed lap sub-record byte sequence (u32 laptime, u16
car index, u16 driver index, u8 split count, that many u32 splits, four
boolean bytes), `parse_lap` decodes the transmitted fields; the resulting
`lap_splits` equal the transmitted splits padded with trailing zeros to a
minimum length of 3, and `lap_type` is Outlap whenever the is_outlap byte is
non-zero (taking precedence over is_inlap), Inlap when only the is_inlap
byte is non-zero, and Regular when both are zero. -/
theorem parse_lap_spec (pre rest splits : List Nat)
    (sz laptime carIdx drvIdx b1 b2 b3 b4 : Nat)
    (hlap : laptime < 4294967296) (hcar : carIdx < 65536) (hdrv : drvIdx < 65536)
    (hcount : splits.length < 256) (hsplits : ∀ s ∈ splits, s < 4294967296) :
    parse_lap ⟨pre ++ (encodeLap laptime carIdx drvIdx splits b1 b2 b3 b4 ++ rest), sz,
        pre.length⟩ =
      some ({ laptime_ms := laptime, car_index := carIdx, driver_index := drvIdx,
              lap_splits := splits ++ List.replicate (3 - splits.length) 0,
              is_invalid := decide (b1 > 0), is_valid_for_best := decide (b2 > 0),
              lap_type := if b3 > 0 then LapType.Outlap
                          else if b4 > 0 then LapType.Inlap
                          else LapType.Regular },
            ⟨pre ++ (encodeLap laptime carIdx drvIdx splits b1 b2 b3 b4 ++ rest), sz,
             pre.length + (13 + 4 * splits.length)⟩) := by
  have hp0 : pre.length ≤
      (pre ++ (encodeLap laptime carIdx drvIdx splits b1 b2 b3 b4 ++ rest)).length := by
    simp
  have h0 : (pre ++ (encodeLap laptime carIdx drvIdx splits b1 b2 b3 b4 ++ rest)).drop
        pre.length =
      u32leBytes laptime ++ (u16leBytes carIdx ++ (u16leBytes drvIdx ++
        (splits.length :: ((splits.map u32leBytes).flatten
          ++ (b1 :: b2 :: b3 :: b4 :: rest))))) := by
    rw [List.drop_left pre _]
    simp [encodeLap, List.append_assoc]
  obtain ⟨h1, hp1, hr1⟩ := read_u32le_rem _ sz pre.length laptime _ hp0 h0 hlap
  obtain ⟨h2, hp2, hr2⟩ := read_u16le_rem _ sz (pre.length + 4) carIdx _ hp1 hr1 hcar
  obtain ⟨h3, hp3, hr3⟩ := read_u16le_rem _ sz (pre.length + 4 + 2) drvIdx _ hp2 hr2 hdrv
  obtain ⟨h4, hp4, hr4⟩ := read_u8_rem _ sz (pre.length + 4 + 2 + 2) splits.length _ hp3 hr3
  obtain ⟨h5, hp5, hr5⟩ :=
    read_splits_rem splits _ sz (pre.length + 4 + 2 + 2 + 1) _ hp4 hr4 hsplits
  obtain ⟨h6, hp6, hr6⟩ :=
    read_u8_rem _ sz (pre.length + 4 + 2 + 2 + 1 + 4 * splits.length) b1 _ hp5 hr5
  obtain ⟨h7, hp7, hr7⟩ :=
    read_u8_rem _ sz (pre.length + 4 + 2 + 2 + 1 + 4 * splits.length + 1) b2 _ hp6 hr6
  obtain ⟨h8, hp8, hr8⟩ :=
    read_u8_rem _ sz (pre.length + 4 + 2 + 2 + 1 + 4 * splits.length + 1 + 1) b3 _ hp7 hr7
  obtain ⟨h9, hp9, hr9⟩ :=
    read_u8_rem _ sz (pre.length + 4 + 2 + 2 + 1 + 4 * splits.length + 1 + 1 + 1) b4 _ hp8 hr8
  simp only [parse_lap, h1, pbind, h2, h3, h4, h5, h6, h7, h8, h9]
  rw [padSplits_eq_pad]
  simp only [Option.some.injEq, Prod.mk.injEq, UdpReader.mk.injEq, true_and,
    LapInfo.mk.injEq]
  omega

/-- Witness for C5: a lap record with laptime 90000 ms, car 7, driver 1, two
splits (padded to three) and flag bytes 0,1,1,0. -/
theorem parse_lap_spec_witness :
    parse_lap ⟨[] ++ (encodeLap 90000 7 1 [30000, 30000] 0 1 1 0 ++ []), 21,
        List.length ([] : List Nat)⟩ =
      some ({ laptime_ms := 90000, car_index := 7, driver_index := 1,
              lap_splits := [30000, 30000] ++
                List.replicate (3 - ([30000, 30000] : List Nat).length) 0,
              is_invalid := decide ((0 : Nat) > 0),
              is_valid_for_best := decide ((1 : Nat) > 0),
              lap_type := if (1 : Nat) > 0 then LapType.Outlap
                          else if (0 : Nat) > 0 then LapType.Inlap
                          else LapType.Regular },
            ⟨[] ++ (encodeLap 90000 7 1 [30000, 30000] 0 1 1 0 ++ []), 21,
             List.length ([] : List Nat) + (13 + 4 * ([30000, 30000] : List Nat).length)⟩) :=
  parse_lap_spec [] [] [30000, 30000] 21 90000 7 1 0 1 1 0 (by decide) (by decide)
    (by decide) (by decide) (by decide)

set_option maxRecDepth 4000 in
/-- C6: for every byte value, converting it to an `InboundMessageType`
succeeds exactly on 1-7, mapping 1,2,3,4,5,6,7 respectively to
RegistrationResult, RealtimeUpdate, RealtimeCarUpdate, EntryList, TrackData,
EntryListCar, BroadcastingEvent, and any other value yields the
unknown-message-tag error. -/
theorem inbound_tag_spec :
    ∀ b : Fin 256, InboundMessageType.try_from b.val = inboundTagTable b.val := by
  decide

/-- C7: the claim says that after `listen` returns a datagram of length n,
no subsequent read on the frame can yield stale bytes at offsets >= n left
over from a previously received datagram.  The code only resets `size` and
the cursor; `read_bytes` never checks `size`, so after a 2-byte datagram
`[1, 2]` overwrites a 5-byte one (all 9s), a 4-byte read succeeds and
returns the stale bytes 9, 9 at offsets 2 and 3. -/
theorem listen_stale_bytes_observable :
    (listen [1, 2] ⟨[9, 9, 9, 9, 9], 5, 3⟩).size = 2 ∧
    read_bytes 4 (listen [1, 2] ⟨[9, 9, 9, 9, 9], 5, 3⟩) =
      some ([1, 2, 9, 9], ⟨[1, 2, 9, 9, 9], 2, 4⟩) :=
  ⟨by decide, by decide⟩

/-- C8: the Register request datagram built by `connect` is, in order, the
tag byte 1, the protocol version byte, the 2-byte length-prefixed display
name, the 2-byte length-prefixed password, the little-endian u32 update
interval, and a zero-length length-prefixed command-password string
terminating the message. -/
theorem connect_register_format :
    connectBuf = [1] ++ [BROADCASTING_PROTOCOL_VERSION] ++ strField "name"
      ++ strField "asd" ++ u32leBytes 250 ++ strField "" := by
  decide

/-- C9: every successful `read_bytes count` returns exactly the `count`
bytes starting at the current cursor, leaves the buffer and datagram size
unchanged, and advances the cursor by exactly `count` — so consecutive
reads consume disjoint, adjacent byte ranges. -/
theorem read_bytes_exact (st : UdpReader) (count : Nat) (bs : List Nat) (st' : UdpReader)
    (h : read_bytes count st = some (bs, st')) :
    bs = (st.buf.drop st.pointer).take count ∧ bs.length = count ∧
    st'.buf = st.buf ∧ st'.size = st.size ∧ st'.pointer = st.pointer + count := by
  unfold read_bytes at h
  by_cases hle : st.pointer + count ≤ st.buf.length
  · rw [if_pos hle] at h
    simp only [Option.some.injEq, Prod.mk.injEq] at h
    obtain ⟨hb, hst⟩ := h
    subst hst
    refine ⟨hb.symm, ?_, rfl, rfl, rfl⟩
    rw [← hb]
    simp only [List.length_take, List.length_drop]
    omega
  · rw [if_neg hle] at h
    cases h

/-- Witness for C9: reading 2 bytes of `[1,2,3]` from cursor 0. -/
theorem read_bytes_exact_witness :
    ([1, 2] : List Nat) = (([1, 2, 3] : List Nat).drop 0).take 2 ∧
    ([1, 2] : List Nat).length = 2 ∧
    ([1, 2, 3] : List Nat) = [1, 2, 3] ∧ (3 : Nat) = 3 ∧ (2 : Nat) = 0 + 2 :=
  read_bytes_exact ⟨[1, 2, 3], 3, 0⟩ 2 [1, 2] ⟨[1, 2, 3], 3, 2⟩ (by decide)

/-- C10: for every u32 input, `ms_to_string` decomposes it into minutes,
seconds and millisecond remainder with seconds < 60, remainder < 1000 and
exact reconstruction, and formats them as "minutes:seconds.remainder". -/
theorem ms_to_string_spec (ms : Nat) (h : ms < 4294967296) :
    (ms - 60000 * (ms / 60000)) / 1000 < 60 ∧
    ms - 60000 * (ms / 60000) - 1000 * ((ms - 60000 * (ms / 60000)) / 1000) < 1000 ∧
    (ms / 60000) * 60000 + ((ms - 60000 * (ms / 60000)) / 1000) * 1000 +
      (ms - 60000 * (ms / 60000) - 1000 * ((ms - 60000 * (ms / 60000)) / 1000)) = ms ∧
    ms_to_string ms =
      toString (ms / 60000) ++ ":" ++ toString ((ms - 60000 * (ms / 60000)) / 1000) ++ "." ++
        toString (ms - 60000 * (ms / 60000) - 1000 * ((ms - 60000 * (ms / 60000)) / 1000)) := by
  refine ⟨?_, ?_, ?_, rfl⟩ <;> omega

/-- Witness for C10 at 83456 ms (1 minute, 23 seconds, 456 ms). -/
theorem ms_to_string_spec_witness :
    ((83456 : Nat) - 60000 * (83456 / 60000)) / 1000 < 60 ∧
    (83456 : Nat) - 60000 * (83456 / 60000) -
      1000 * ((83456 - 60000 * (83456 / 60000)) / 1000) < 1000 ∧
    ((83456 : Nat) / 60000) * 60000 + ((83456 - 60000 * (83456 / 60000)) / 1000) * 1000 +
      (83456 - 60000 * (83456 / 60000) - 1000 * ((83456 - 60000 * (83456 / 60000)) / 1000)) =
        83456 ∧
    ms_to_string 83456 =
      toString ((83456 : Nat) / 60000) ++ ":"
        ++ toString (((83456 : Nat) - 60000 * (83456 / 60000)) / 1000) ++ "."
        ++ toString ((83456 : Nat) - 60000 * (83456 / 60000) -
             1000 * ((83456 - 60000 * (83456 / 60000)) / 1000)) :=
  ms_to_string_spec 83456 (by decide)
